import Mathlib

/-!
# Shallow embedding of the oxc VS Code extension client layer

This file embeds the client-side orchestration layer of the oxc editor
extension: the formatter backend module (binary resolution, launch-spec
construction, protocol client lifecycle commands, configuration push/pull,
notification routing) and the top-level extension entry points that fan
commands out to the linter and formatter backends.

Modelling conventions:
 - JavaScript `string | undefined` values become `Option String`; JS
   truthiness of such a value (`if (bin)`) is `truthy`.
 - The process environment is a lookup function `String → Option String`.
 - The external `LanguageClient` (from vscode-languageclient) is modelled by
   its running flag and its pending `initializationOptions`; `start`, `stop`
   and `restart` are the documented state transitions (start ends running,
   stop ends stopped, restart is stop-then-start).
 - UI and logging side effects are reified as `Action` values collected in
   lists, in program order.
-/

namespace OxcSpec

/-- Observable side effects of the client layer: output-channel log appends
(`logDebug`, `logInfo`, `logError`), interactive window prompts (`showInfo`,
`showWarning`, `showError`), and outbound protocol notifications carrying a
settings payload. -/
inductive Action (Cfg : Type) where
  | logDebug (msg : String)
  | logInfo (msg : String)
  | logError (msg : String)
  | showInfo (msg : String)
  | showWarning (msg : String)
  | showError (msg : String)
  | sendNotification (method : String) (settings : Cfg)
  deriving DecidableEq, Repr

/-- LSP MessageType.Error tag. -/
def MessageType.Error : Nat := 1

/-- LSP MessageType.Warning tag. -/
def MessageType.Warning : Nat := 2

/-- LSP MessageType.Info tag. -/
def MessageType.Info : Nat := 3

/-- LSP MessageType.Log tag. -/
def MessageType.Log : Nat := 4

/-- LSP MessageType.Debug tag. -/
def MessageType.Debug : Nat := 5

/-- The ShowMessage notification handler registered in the formatter module's
`activate`: a switch on `params.type` routing to the output channel or an
interactive window prompt, with a default case logging as info. -/
def routeShowMessage (Cfg : Type) (ty : Nat) (msg : String) : List (Action Cfg) :=
  if ty = MessageType.Debug then [Action.logDebug msg]
  else if ty = MessageType.Log then [Action.logInfo msg]
  else if ty = MessageType.Info then [Action.showInfo msg]
  else if ty = MessageType.Warning then [Action.showWarning msg]
  else if ty = MessageType.Error then [Action.showError msg]
  else [Action.logInfo msg]

/-- The external `LanguageClient` object, reduced to the state this layer
observes: `running` (the `isRunning()` predicate) and the pending
`clientOptions.initializationOptions` used on the next (re)start. -/
structure Client (Cfg : Type) where
  running : Bool
  initializationOptions : Cfg
  deriving DecidableEq, Repr

/-- The external `client.start()`: the session ends running. -/
def Client.start {Cfg : Type} (c : Client Cfg) : Client Cfg :=
  { c with running := true }

/-- The external `client.stop()`: the session ends stopped; a no-op when already stopped. -/
def Client.stop {Cfg : Type} (c : Client Cfg) : Client Cfg :=
  { c with running := false }

/-- The external `client.restart()`: an in-place stop-then-start. -/
def Client.restart {Cfg : Type} (c : Client Cfg) : Client Cfg :=
  c.stop.start

/-- The formatter module's exported `restartClient`: with no session object it
surfaces an error alert and returns; with a running session it restarts and
surfaces an info alert; otherwise it performs a plain start. -/
def restartClient {Cfg : Type} (client : Option (Client Cfg)) :
    Option (Client Cfg) × List (Action Cfg) :=
  match client with
  | none => (none, [Action.showError "oxc client not found"])
  | some c =>
    if c.running then
      (some c.restart, [Action.showInfo "oxc server restarted."])
    else
      (some c.start, [])

/-- The formatter module's exported `toggleClient`, with
`configService.vsCodeConfig.enable` passed as `enable`: stop a running session
when disabled, start a stopped session when enabled, otherwise no-op. -/
def toggleClient {Cfg : Type} (enable : Bool) (client : Option (Client Cfg)) :
    Option (Client Cfg) :=
  match client with
  | none => none
  | some c =>
    if c.running then
      if !enable then some c.stop else some c
    else
      if enable then some c.start else some c

/-- The slice of `ConfigService` this layer reads: the global enable flag, the
merged language-server configuration snapshot, and the relevance predicate
`effectsWorkspaceConfigChange` on configuration-change events. -/
structure ConfigService (Ev Cfg : Type) where
  enable : Bool
  languageServerConfig : Cfg
  effectsWorkspaceConfigChange : Ev → Bool

/-- Outcome of one `onConfigChange` invocation: the updated session object,
the outbound notifications sent, and the enable flag the status bar was
refreshed with. -/
structure ConfigChangeResult (Cfg : Type) where
  client : Option (Client Cfg)
  sent : List (Action Cfg)
  statusBarEnable : Bool
  deriving DecidableEq, Repr

/-- The formatter module's exported `onConfigChange`: refresh the status bar;
return if no session object exists; unconditionally refresh the pending
`initializationOptions`; then push the full settings snapshot via
`workspace/didChangeConfiguration` exactly when the event is session-relevant
and the session is running. -/
def onConfigChange {Ev Cfg : Type} (cs : ConfigService Ev Cfg) (ev : Ev)
    (client : Option (Client Cfg)) : ConfigChangeResult Cfg :=
  match client with
  | none => { client := none, sent := [], statusBarEnable := cs.enable }
  | some c =>
    let c2 := { c with initializationOptions := cs.languageServerConfig }
    if cs.effectsWorkspaceConfigChange ev && c2.running then
      { client := some c2,
        sent := [Action.sendNotification "workspace/didChangeConfiguration"
                  cs.languageServerConfig],
        statusBarEnable := cs.enable }
    else
      { client := some c2, sent := [], statusBarEnable := cs.enable }

/-- One item of an inbound `workspace/configuration` pull request: an optional
section name and an optional scope URI (already in string form). -/
structure ConfigurationItem where
  sectionName : Option String
  scopeUri : Option String
  deriving DecidableEq, Repr

/-- The `workspace.configuration` middleware from the formatter module's
client options: map each request item to `null` unless its section is
"oxc_language_server" and it carries a scope URI that resolves to a workspace
configuration, in which case answer with that scope's merged language-server
configuration. `getWorkspaceConfig` is `configService.getWorkspaceConfig ∘
Uri.parse` and `toLanguageServerConfig` the workspace config's projection. -/
def middlewareConfiguration {WCfg Cfg : Type} (getWorkspaceConfig : String → Option WCfg)
    (toLanguageServerConfig : WCfg → Cfg) (items : List ConfigurationItem) :
    List (Option Cfg) :=
  items.map fun item =>
    if item.sectionName ≠ some "oxc_language_server" then none
    else
      match item.scopeUri with
      | none => none
      | some uri => (getWorkspaceConfig uri).map toLanguageServerConfig

/-- JS truthiness of a `string | undefined` value: present and non-empty. -/
def truthy (s : Option String) : Bool :=
  match s with
  | some v => v ≠ ""
  | none => false

/-- The formatter module's `findBinary`, with its effects reified: `bin` is
the configured path from `configService.getOxfmtServerBinPath()`, `accessOk`
the file-system accessibility check, `serverPathDev` the `SERVER_PATH_DEV`
environment variable. Returns the resolved path together with the list of
paths that were accessibility-checked, in order. -/
def findBinary (bin : Option String) (accessOk : String → Bool)
    (serverPathDev : Option String) : Option String × List String :=
  match bin with
  | some b =>
    if b ≠ "" then
      if accessOk b then (some b, [b]) else (serverPathDev, [b])
    else (serverPathDev, [])
  | none => (serverPathDev, [])

/-- The value given to `RUST_LOG` in the child environment:
`process.env.RUST_LOG || 'info'` (absent or empty falls back to "info"). -/
def rustLogValue (v : Option String) : String :=
  match v with
  | some s => if s ≠ "" then s else "info"
  | none => "info"

/-- The platform path separator used when prepending `nodePath`:
";" on win32, ":" elsewhere. -/
def pathSep (isWin : Bool) : String :=
  if isWin then ";" else ":"

/-- The spread `{...process.env, RUST_LOG: process.env.RUST_LOG || 'info'}`. -/
def baseServerEnv (env : String → Option String) : String → Option String :=
  fun k => if k = "RUST_LOG" then some (rustLogValue (env "RUST_LOG")) else env k

/-- The formatter module's `serverEnv`: the ambient process environment with
`RUST_LOG` defaulted, and, when a non-empty `nodePath` is configured, `PATH`
overwritten with `nodePath` prepended (separator by platform) to the ambient
`PATH` (empty when absent). -/
def mkServerEnv (env : String → Option String) (nodePath : Option String)
    (isWin : Bool) : String → Option String :=
  if truthy nodePath then
    fun k =>
      if k = "PATH" then
        some (nodePath.getD "" ++ pathSep isWin ++ (env "PATH").getD "")
      else baseServerEnv env k
  else baseServerEnv env

/-- An `Executable` launch spec from vscode-languageclient: command, argument
list, whether to launch through a shell, and the child environment. -/
structure Executable where
  command : String
  args : List String
  shell : Bool
  env : String → Option String

/-- JS `String.prototype.endsWith`: the character sequence of `suf` is a
suffix of the character sequence of `s`. -/
def strEndsWith (s suf : String) : Bool :=
  s.data.reverse.take suf.data.length == suf.data.reverse

/-- Whether the resolved path is a Node script requiring the `node` runtime:
it ends in `.js`, `.cjs` or `.mjs`. -/
def isNodeScript (path : String) : Bool :=
  strEndsWith path ".js" || strEndsWith path ".cjs" || strEndsWith path ".mjs"

/-- The formatter module's `run` executable: for a Node script, the `node`
command with the script path and `--lsp`; otherwise the path itself with
`--lsp`, run through a shell on win32. Both shapes carry `serverEnv`. -/
def mkRun (path : String) (serverEnv : String → Option String) (isWin : Bool) :
    Executable :=
  if isNodeScript path then
    { command := "node", args := [path, "--lsp"], shell := false, env := serverEnv }
  else
    { command := path, args := ["--lsp"], shell := isWin, env := serverEnv }

/-- Outcome of the formatter module's `activate` up to session construction
and conditional start: the session object (absent on resolution failure), the
error log entries, and the accessibility checks performed by resolution. -/
structure ActivateResult (Cfg : Type) where
  client : Option (Client Cfg)
  errors : List String
  accessChecks : List String
  deriving Repr

/-- The formatter module's `activate` control flow around binary resolution:
resolve via `findBinary`; when the result is falsy (`!path`) log
"oxfmt server binary not found." and return without constructing a session;
otherwise construct the client with the current language-server configuration
as `initializationOptions` and start it exactly when `enable` is set. -/
def activateFormatter {Cfg : Type} (bin : Option String) (accessOk : String → Bool)
    (serverPathDev : Option String) (enable : Bool) (initOptions : Cfg) :
    ActivateResult Cfg :=
  let r := findBinary bin accessOk serverPathDev
  if truthy r.1 then
    { client := some { running := enable, initializationOptions := initOptions },
      errors := [],
      accessChecks := r.2 }
  else
    { client := none,
      errors := ["oxfmt server binary not found."],
      accessChecks := r.2 }

/-- Which closure is currently assigned to `configService.onConfigChange`:
the extension's fan-out handler, or one of the per-module internal handlers
assigned during that module's `activate` (last assignment wins). -/
inductive Handler where
  | unset
  | fanout
  | linterInternal
  | formatterInternal
  deriving DecidableEq, Repr

/-- One backend module's observable state: its module-level `client` variable
and the log of actions it has emitted, in order. -/
structure BackendSide (Cfg : Type) where
  client : Option (Client Cfg)
  log : List (Action Cfg)
  deriving DecidableEq, Repr

/-- The state mutated by the top-level extension entry points: the linter
module's side, the formatter module's side, the shared
`configService.vsCodeConfig.enable` flag, and the shared
`configService.onConfigChange` slot. -/
structure TopState (Cfg : Type) where
  linter : BackendSide Cfg
  formatter : BackendSide Cfg
  enable : Bool
  handler : Handler
  deriving DecidableEq, Repr

/-- Per-backend activation inputs: the configured binary path, the
accessibility check, the development-path environment variable, and the
binary-not-found message the module logs. -/
structure BackendParams where
  bin : Option String
  accessOk : String → Bool
  serverPathDev : Option String
  notFoundMsg : String

/-- The environment of one run of the top-level extension: the two
kill-switches (`SKIP_LINTER_TEST` / `SKIP_FORMATTER_TEST` equal to "true"),
each backend's activation inputs, and the configuration service's state at
activation (enable flag and language-server configuration snapshot). -/
structure ExtEnv (Cfg : Type) where
  skipLinter : Bool
  skipFormatter : Bool
  linterParams : BackendParams
  formatterParams : BackendParams
  enable : Bool
  initialConfig : Cfg

/-- One backend module's `activate` as invoked from the extension: resolve
the binary; on failure log the not-found message and leave the module state
and handler slot unchanged; on success overwrite the module's client (started
exactly when `enable`) and assign the module's internal handler (`tag`) to
the shared `onConfigChange` slot. -/
def moduleActivate {Cfg : Type} (p : BackendParams) (enable : Bool)
    (initOptions : Cfg) (tag : Handler) (side : BackendSide Cfg) (h : Handler) :
    BackendSide Cfg × Handler :=
  let r := findBinary p.bin p.accessOk p.serverPathDev
  if truthy r.1 then
    ({ client := some { running := enable, initializationOptions := initOptions },
       log := side.log }, tag)
  else
    ({ side with log := side.log ++ [Action.logError p.notFoundMsg] }, h)

/-- The top-level `activate`: assign the fan-out handler, then activate the
linter module unless its kill-switch is set, then the formatter module unless
its kill-switch is set. -/
def extActivate {Cfg : Type} (env : ExtEnv Cfg) : TopState Cfg :=
  let s0 : TopState Cfg :=
    { linter := { client := none, log := [] },
      formatter := { client := none, log := [] },
      enable := env.enable,
      handler := Handler.fanout }
  let s1 :=
    if env.skipLinter then s0
    else
      let lh := moduleActivate env.linterParams s0.enable env.initialConfig
        Handler.linterInternal s0.linter s0.handler
      { s0 with linter := lh.1, handler := lh.2 }
  if env.skipFormatter then s1
  else
    let fh := moduleActivate env.formatterParams s1.enable env.initialConfig
      Handler.formatterInternal s1.formatter s1.handler
    { s1 with formatter := fh.1, handler := fh.2 }

/-- One backend's leg of the fanned-out restart command. -/
def applyRestart {Cfg : Type} (side : BackendSide Cfg) : BackendSide Cfg :=
  let r := restartClient side.client
  { client := r.1, log := side.log ++ r.2 }

/-- One backend's leg of the fanned-out toggle command. -/
def applyToggle {Cfg : Type} (enable : Bool) (side : BackendSide Cfg) :
    BackendSide Cfg :=
  { side with client := toggleClient enable side.client }

/-- One backend's leg of the fanned-out configuration-change handler, calling
the module's exported `onConfigChange` with the shared configuration
service's current readouts (enable flag, fresh snapshot, relevance). -/
def applyConfigChange {Cfg : Type} (enable : Bool) (relevant : Bool)
    (newCfg : Cfg) (side : BackendSide Cfg) : BackendSide Cfg :=
  let cs : ConfigService Unit Cfg :=
    { enable := enable,
      languageServerConfig := newCfg,
      effectsWorkspaceConfigChange := fun _ => relevant }
  let r := onConfigChange cs () side.client
  { client := r.client, log := side.log ++ r.sent }

/-- One backend's leg of the top-level deactivate: stop and drop the client
(a no-op when absent). -/
def applyDeactivate {Cfg : Type} (side : BackendSide Cfg) : BackendSide Cfg :=
  { side with client := none }

/-- The operations the extension can run after activation: the registered
restart and toggle commands, a configuration-change event (carrying the
shared service's relevance verdict and fresh snapshot), and deactivate. -/
inductive Op (Cfg : Type) where
  | restartCmd
  | toggleCmd
  | configChangeCmd (relevant : Bool) (newCfg : Cfg)
  | deactivateCmd
  deriving DecidableEq, Repr

/-- One step of the fan-out layer: each operation runs its linter leg unless
`SKIP_LINTER_TEST` is set, then its formatter leg unless
`SKIP_FORMATTER_TEST` is set; the toggle command first flips the shared
enable flag. -/
def stepOp {Cfg : Type} (env : ExtEnv Cfg) (s : TopState Cfg) : Op Cfg → TopState Cfg
  | Op.restartCmd =>
    let s1 := if env.skipLinter then s else { s with linter := applyRestart s.linter }
    if env.skipFormatter then s1 else { s1 with formatter := applyRestart s1.formatter }
  | Op.toggleCmd =>
    let s0 := { s with enable := !s.enable }
    let s1 := if env.skipLinter then s0
      else { s0 with linter := applyToggle s0.enable s0.linter }
    if env.skipFormatter then s1
    else { s1 with formatter := applyToggle s1.enable s1.formatter }
  | Op.configChangeCmd relevant newCfg =>
    let s1 := if env.skipLinter then s
      else { s with linter := applyConfigChange s.enable relevant newCfg s.linter }
    if env.skipFormatter then s1
    else { s1 with formatter := applyConfigChange s1.enable relevant newCfg s1.formatter }
  | Op.deactivateCmd =>
    let s1 := if env.skipLinter then s else { s with linter := applyDeactivate s.linter }
    if env.skipFormatter then s1 else { s1 with formatter := applyDeactivate s1.formatter }

/-- Run a sequence of fanned-out operations from a state. -/
def runOps {Cfg : Type} (env : ExtEnv Cfg) (ops : List (Op Cfg)) (s : TopState Cfg) :
    TopState Cfg :=
  ops.foldl (stepOp env) s

/-! ## Theorems -/

/-- C10: invoking `restartClient` while no session object exists surfaces the
error alert "oxc client not found" and returns without starting or stopping
anything; no session is created as a side effect. -/
theorem c10_restart_without_client {Cfg : Type} :
    restartClient (none : Option (Client Cfg))
      = (none, [Action.showError "oxc client not found"]) :=
  rfl

/-- C6: `toggleClient` is idempotent: for every session state and enable
flag, toggling twice with the same flag equals toggling once, and when a
session object exists the session ends running exactly when the flag is
true. -/
theorem c6_toggle_idempotent {Cfg : Type} (enable : Bool) (s : Option (Client Cfg)) :
    toggleClient enable (toggleClient enable s) = toggleClient enable s
    ∧ ∀ c : Client Cfg, s = some c →
        ∃ c2 : Client Cfg, toggleClient enable s = some c2 ∧ c2.running = enable := by
  constructor
  · cases s with
    | none => rfl
    | some c =>
      cases c with
      | mk r io => cases r <;> cases enable <;> rfl
  · intro c hs
    subst hs
    cases c with
    | mk r io =>
      cases r <;> cases enable <;>
        exact ⟨_, rfl, rfl⟩

/-- Witness for C6 at a concrete stopped session and flag. -/
theorem c6_toggle_idempotent_witness :
    (toggleClient true (toggleClient true (some (Client.mk false (0 : Nat))))
      = toggleClient true (some (Client.mk false 0)))
    ∧ ∃ c2 : Client Nat, toggleClient true (some (Client.mk false 0)) = some c2
        ∧ c2.running = true :=
  ⟨(c6_toggle_idempotent true (some (Client.mk false 0))).1,
   (c6_toggle_idempotent true (some (Client.mk false 0))).2 (Client.mk false 0) rfl⟩

/-- C5: invoking `restartClient` on a constructed but never-started session
behaves identically to a plain start (no alert, session ends running), while
only a currently-running session undergoes the stop-then-start restart with
its info alert. -/
theorem c5_restart_unstarted_is_start {Cfg : Type} (c : Client Cfg)
    (h : c.running = false) :
    restartClient (some c) = (some c.start, [])
    ∧ (restartClient (some c)).1 = some { c with running := true }
    ∧ ∀ c2 : Client Cfg, c2.running = true →
        restartClient (some c2)
          = (some c2.restart, [Action.showInfo "oxc server restarted."]) := by
  refine ⟨?_, ?_, ?_⟩
  · simp [restartClient, h]
  · simp [restartClient, h, Client.start]
  · intro c2 h2
    simp [restartClient, h2]

/-- Witness for C5 at a concrete never-started session. -/
theorem c5_restart_unstarted_is_start_witness :
    (Client.mk false (0 : Nat)).running = false
    ∧ (restartClient (some (Client.mk false (0 : Nat))) = (some (Client.mk false 0).start, [])
      ∧ (restartClient (some (Client.mk false (0 : Nat)))).1
          = some { Client.mk false (0 : Nat) with running := true }
      ∧ ∀ c2 : Client Nat, c2.running = true →
          restartClient (some c2)
            = (some c2.restart, [Action.showInfo "oxc server restarted."])) :=
  ⟨rfl, c5_restart_unstarted_is_start (Client.mk false 0) rfl⟩

/-- C7: whenever a session object exists, `onConfigChange` refreshes the
pending `initializationOptions` to the current language-server configuration,
for every event, relevant or not, and leaves the running flag unchanged. -/
theorem c7_init_options_refreshed {Ev Cfg : Type} (cs : ConfigService Ev Cfg)
    (ev : Ev) (c : Client Cfg) :
    ∃ c2 : Client Cfg, (onConfigChange cs ev (some c)).client = some c2
      ∧ c2.initializationOptions = cs.languageServerConfig
      ∧ c2.running = c.running := by
  refine ⟨{ c with initializationOptions := cs.languageServerConfig }, ?_, rfl, rfl⟩
  simp only [onConfigChange]
  split <;> rfl

/-- C3 counterexample: a `MessageType.Error` message is routed to the
interactive error alert only; no output-channel log append is emitted, so the
message does not also "appear in the log" as the claim states. -/
theorem c3_error_not_logged_counterexample :
    routeShowMessage Nat MessageType.Error "boom" = [Action.showError "boom"]
    ∧ (Action.logDebug "boom" : Action Nat) ∉ routeShowMessage Nat MessageType.Error "boom"
    ∧ (Action.logInfo "boom" : Action Nat) ∉ routeShowMessage Nat MessageType.Error "boom"
    ∧ (Action.logError "boom" : Action Nat) ∉ routeShowMessage Nat MessageType.Error "boom" := by
  decide

/-- C3 amended: an error-tagged message is surfaced as an interactive error
alert only (not logged); a debug-tagged message is appended to the diagnostic
log only; an unrecognized severity tag is appended to the log as
informational rather than dropped. -/
theorem c3_severity_routing (Cfg : Type) (msg : String) :
    routeShowMessage Cfg MessageType.Error msg = [Action.showError msg]
    ∧ routeShowMessage Cfg MessageType.Debug msg = [Action.logDebug msg]
    ∧ ∀ ty : Nat, ty ∉ ([1, 2, 3, 4, 5] : List Nat) →
        routeShowMessage Cfg ty msg = [Action.logInfo msg] := by
  refine ⟨rfl, rfl, ?_⟩
  intro ty hty
  simp only [List.mem_cons, List.not_mem_nil, or_false, not_or] at hty
  obtain ⟨h1, h2, h3, h4, h5⟩ := hty
  simp [routeShowMessage, MessageType.Error, MessageType.Warning, MessageType.Info,
    MessageType.Log, MessageType.Debug, h1, h2, h3, h4, h5]

/-- Witness for the amended C3 at a concrete message and the unrecognized
severity tag 9. -/
theorem c3_severity_routing_witness :
    routeShowMessage Nat MessageType.Error "m" = [Action.showError "m"]
    ∧ routeShowMessage Nat MessageType.Debug "m" = [Action.logDebug "m"]
    ∧ (9 : Nat) ∉ ([1, 2, 3, 4, 5] : List Nat)
    ∧ routeShowMessage Nat 9 "m" = [Action.logInfo "m"] :=
  ⟨(c3_severity_routing Nat "m").1, (c3_severity_routing Nat "m").2.1,
   by decide, (c3_severity_routing Nat "m").2.2 9 (by decide)⟩

/-- The outbound notifications of `onConfigChange` on an existing session, as
a single conditional. -/
theorem onConfigChange_sent_some {Ev Cfg : Type} (cs : ConfigService Ev Cfg)
    (ev : Ev) (c : Client Cfg) :
    (onConfigChange cs ev (some c)).sent
      = if cs.effectsWorkspaceConfigChange ev && c.running then
          [Action.sendNotification "workspace/didChangeConfiguration"
            cs.languageServerConfig]
        else [] := by
  simp only [onConfigChange]
  split <;> rename_i h <;> simp at h <;> simp [h]

/-- C1: `onConfigChange` sends an outbound notification exactly when a
session object exists, the event is session-relevant, and the session is
running; and any notification sent is the `workspace/didChangeConfiguration`
notification carrying the full current settings snapshot. -/
theorem c1_push_iff_relevant_and_running {Ev Cfg : Type} (cs : ConfigService Ev Cfg)
    (ev : Ev) (client : Option (Client Cfg)) :
    ((onConfigChange cs ev client).sent ≠ []
      ↔ ∃ c : Client Cfg, client = some c
          ∧ cs.effectsWorkspaceConfigChange ev = true ∧ c.running = true)
    ∧ ((onConfigChange cs ev client).sent ≠ [] →
        (onConfigChange cs ev client).sent
          = [Action.sendNotification "workspace/didChangeConfiguration"
              cs.languageServerConfig]) := by
  cases client with
  | none => refine ⟨?_, ?_⟩ <;> simp [onConfigChange]
  | some c =>
    rw [onConfigChange_sent_some]
    cases hb : cs.effectsWorkspaceConfigChange ev && c.running with
    | false =>
      rw [if_neg (by simp [hb])]
      refine ⟨?_, ?_⟩
      · constructor
        · intro h; exact absurd rfl h
        · rintro ⟨c2, hc2, h1, h2⟩
          injection hc2 with hcc
          subst hcc
          rw [h1, h2] at hb
          simp at hb
      · intro h; exact absurd rfl h
    | true =>
      rw [if_pos (by simp [hb])]
      have hb2 := hb
      simp only [Bool.and_eq_true] at hb2
      obtain ⟨h1, h2⟩ := hb2
      exact ⟨⟨fun _ => ⟨c, rfl, h1, h2⟩, fun _ => by simp⟩, fun _ => rfl⟩

/-- Witness for C1 at a running session with a relevant event. -/
theorem c1_push_iff_relevant_and_running_witness :
    (onConfigChange (ConfigService.mk true (42 : Nat) (fun _ : Unit => true)) ()
        (some (Client.mk true 0))).sent ≠ []
    ∧ (onConfigChange (ConfigService.mk true (42 : Nat) (fun _ : Unit => true)) ()
        (some (Client.mk true 0))).sent
      = [Action.sendNotification "workspace/didChangeConfiguration" 42] :=
  ⟨by decide,
   (c1_push_iff_relevant_and_running (ConfigService.mk true 42 (fun _ => true)) ()
     (some (Client.mk true 0))).2 (by decide)⟩

/-- C2: the configuration-pull middleware answers a request of N items with
exactly N entries in request order: entry i is null when item i's section is
not "oxc_language_server", its scope URI is absent, or no workspace
configuration resolves for the scope; otherwise it is that scope's merged
language-server configuration. -/
theorem c2_pull_positional_response {WCfg Cfg : Type} (getW : String → Option WCfg)
    (toLS : WCfg → Cfg) (items : List ConfigurationItem) :
    (middlewareConfiguration getW toLS items).length = items.length
    ∧ ∀ (i : Nat) (item : ConfigurationItem), items[i]? = some item →
        ((item.sectionName ≠ some "oxc_language_server" ∨ item.scopeUri = none) →
          (middlewareConfiguration getW toLS items)[i]? = some none)
        ∧ ∀ uri : String, item.sectionName = some "oxc_language_server" →
            item.scopeUri = some uri →
            (middlewareConfiguration getW toLS items)[i]?
              = some ((getW uri).map toLS) := by
  constructor
  · exact List.length_map ..
  · intro i item hi
    rw [middlewareConfiguration, List.getElem?_map, hi, Option.map_some']
    constructor
    · rintro (hsec | hscope)
      · rw [if_pos hsec]
      · by_cases hsec : item.sectionName ≠ some "oxc_language_server"
        · rw [if_pos hsec]
        · rw [if_neg hsec, hscope]
    · intro uri hsec hscope
      rw [if_neg (by simp [hsec]), hscope]

/-- Witness for C2 on a two-item request: a matching item resolving to a
configuration and a non-matching item answered null. -/
theorem c2_pull_positional_response_witness :
    ((([ConfigurationItem.mk (some "oxc_language_server") (some "file:a"),
        ConfigurationItem.mk (some "x") none] : List ConfigurationItem))[0]?
      = some (ConfigurationItem.mk (some "oxc_language_server") (some "file:a")))
    ∧ (middlewareConfiguration (fun u => if u = "file:a" then some (7 : Nat) else none)
        (fun n => n + 1)
        [ConfigurationItem.mk (some "oxc_language_server") (some "file:a"),
         ConfigurationItem.mk (some "x") none])[0]? = some (some 8)
    ∧ (middlewareConfiguration (fun u => if u = "file:a" then some (7 : Nat) else none)
        (fun n => n + 1)
        [ConfigurationItem.mk (some "oxc_language_server") (some "file:a"),
         ConfigurationItem.mk (some "x") none])[1]? = some none
    ∧ (middlewareConfiguration (fun u => if u = "file:a" then some (7 : Nat) else none)
        (fun n => n + 1)
        [ConfigurationItem.mk (some "oxc_language_server") (some "file:a"),
         ConfigurationItem.mk (some "x") none]).length = 2 :=
  ⟨rfl,
   by
    have h := ((c2_pull_positional_response
      (fun u => if u = "file:a" then some (7 : Nat) else none) (fun n => n + 1)
      [ConfigurationItem.mk (some "oxc_language_server") (some "file:a"),
       ConfigurationItem.mk (some "x") none]).2 0
      (ConfigurationItem.mk (some "oxc_language_server") (some "file:a")) rfl).2
      "file:a" rfl rfl
    simpa using h,
   ((c2_pull_positional_response
      (fun u => if u = "file:a" then some (7 : Nat) else none) (fun n => n + 1)
      [ConfigurationItem.mk (some "oxc_language_server") (some "file:a"),
       ConfigurationItem.mk (some "x") none]).2 1
      (ConfigurationItem.mk (some "x") none) rfl).1 (Or.inl (by decide)),
   (c2_pull_positional_response
      (fun u => if u = "file:a" then some (7 : Nat) else none) (fun n => n + 1)
      [ConfigurationItem.mk (some "oxc_language_server") (some "file:a"),
       ConfigurationItem.mk (some "x") none]).1⟩

/-- C4: binary resolution tries the configured path first (a present,
accessible configured path wins with exactly one accessibility check); a
configured path that is absent or fails the check falls through to
`SERVER_PATH_DEV` with the configured path checked at most once and never
retried; and when the resolved result is falsy, activation logs the error and
constructs no session. -/
theorem c4_binary_resolution_fallback {Cfg : Type} (bin : Option String)
    (accessOk : String → Bool) (dev : Option String) (enable : Bool)
    (initOptions : Cfg) :
    (∀ b : String, bin = some b → b ≠ "" → accessOk b = true →
        findBinary bin accessOk dev = (some b, [b]))
    ∧ (∀ b : String, bin = some b → b ≠ "" → accessOk b = false →
        findBinary bin accessOk dev = (dev, [b]))
    ∧ (bin = none → findBinary bin accessOk dev = (dev, []))
    ∧ (truthy (findBinary bin accessOk dev).1 = false →
        (activateFormatter bin accessOk dev enable initOptions).client = none
        ∧ (activateFormatter bin accessOk dev enable initOptions).errors
            = ["oxfmt server binary not found."]) := by
  refine ⟨?_, ?_, ?_, ?_⟩
  · rintro b rfl hne hacc
    simp [findBinary, hne, hacc]
  · rintro b rfl hne hacc
    simp [findBinary, hne, hacc]
  · rintro rfl
    rfl
  · intro hf
    constructor <;> simp [activateFormatter, hf]

/-- Witness for C4: an inaccessible configured path falls through to the
development path, and a fully failed resolution aborts activation. -/
theorem c4_binary_resolution_fallback_witness :
    ("/bad" : String) ≠ ""
    ∧ (fun _ : String => false) "/bad" = false
    ∧ findBinary (some "/bad") (fun _ => false) (some "/srv") = (some "/srv", ["/bad"])
    ∧ findBinary none (fun _ => false) none = (none, [])
    ∧ truthy (findBinary none (fun _ => false) none).1 = false
    ∧ (activateFormatter none (fun _ => false) none true (0 : Nat)).client = none
    ∧ (activateFormatter none (fun _ => false) none true (0 : Nat)).errors
        = ["oxfmt server binary not found."] :=
  ⟨by decide, rfl,
   (c4_binary_resolution_fallback (some "/bad") (fun _ => false) (some "/srv") true
     (0 : Nat)).2.1 "/bad" rfl (by decide) rfl,
   (c4_binary_resolution_fallback none (fun _ => false) none true (0 : Nat)).2.2.1 rfl,
   by decide,
   ((c4_binary_resolution_fallback none (fun _ => false) none true (0 : Nat)).2.2.2
     (by decide)).1,
   ((c4_binary_resolution_fallback none (fun _ => false) none true (0 : Nat)).2.2.2
     (by decide)).2⟩

/-- C8: the launch spec has exactly two shapes decided by the script-suffix
test (`node` with `[path, --lsp]` for scripts, the path itself with `[--lsp]`
otherwise), both carrying the server environment: the ambient environment
with `RUST_LOG` defaulted to "info", `PATH` prepended with a configured
`nodePath`, and every other variable passed through unchanged. -/
theorem c8_launch_spec_shapes (path : String) (env : String → Option String)
    (nodePath : Option String) (isWin : Bool) :
    (isNodeScript path = true →
      mkRun path (mkServerEnv env nodePath isWin) isWin
        = { command := "node", args := [path, "--lsp"], shell := false,
            env := mkServerEnv env nodePath isWin })
    ∧ (isNodeScript path = false →
      mkRun path (mkServerEnv env nodePath isWin) isWin
        = { command := path, args := ["--lsp"], shell := isWin,
            env := mkServerEnv env nodePath isWin })
    ∧ mkServerEnv env nodePath isWin "RUST_LOG" = some (rustLogValue (env "RUST_LOG"))
    ∧ (∀ np : String, nodePath = some np → np ≠ "" →
        mkServerEnv env nodePath isWin "PATH"
          = some (np ++ pathSep isWin ++ (env "PATH").getD ""))
    ∧ (truthy nodePath = false → mkServerEnv env nodePath isWin "PATH" = env "PATH")
    ∧ (∀ k : String, k ≠ "RUST_LOG" → k ≠ "PATH" →
        mkServerEnv env nodePath isWin k = env k) := by
  refine ⟨?_, ?_, ?_, ?_, ?_, ?_⟩
  · intro h; simp [mkRun, h]
  · intro h; simp [mkRun, h]
  · by_cases ht : truthy nodePath <;> simp [mkServerEnv, ht, baseServerEnv]
  · rintro np rfl hne
    have ht : truthy (some np) = true := by simp [truthy, hne]
    simp [mkServerEnv, ht]
  · intro ht
    simp [mkServerEnv, ht, baseServerEnv]
  · intro k h1 h2
    by_cases ht : truthy nodePath <;> simp [mkServerEnv, ht, baseServerEnv, h1, h2]

/-- Witness for C8 at a Node-script path with a configured node path. -/
theorem c8_launch_spec_shapes_witness :
    isNodeScript "srv.js" = true
    ∧ mkRun "srv.js"
        (mkServerEnv (fun k => if k = "PATH" then some "/usr/bin" else none)
          (some "/opt/node") false) false
      = { command := "node", args := ["srv.js", "--lsp"], shell := false,
          env := mkServerEnv (fun k => if k = "PATH" then some "/usr/bin" else none)
            (some "/opt/node") false }
    ∧ ("/opt/node" : String) ≠ ""
    ∧ mkServerEnv (fun k => if k = "PATH" then some "/usr/bin" else none)
        (some "/opt/node") false "PATH"
      = some ("/opt/node" ++ pathSep false
          ++ ((fun k => if k = "PATH" then some "/usr/bin" else none) "PATH").getD "")
    ∧ ("HOME" : String) ≠ "RUST_LOG"
    ∧ ("HOME" : String) ≠ "PATH"
    ∧ mkServerEnv (fun k => if k = "PATH" then some "/usr/bin" else none)
        (some "/opt/node") false "HOME"
      = (fun k => if k = "PATH" then some "/usr/bin" else none) "HOME" :=
  ⟨by decide,
   (c8_launch_spec_shapes "srv.js" (fun k => if k = "PATH" then some "/usr/bin" else none)
     (some "/opt/node") false).1 (by decide),
   by decide,
   (c8_launch_spec_shapes "srv.js" (fun k => if k = "PATH" then some "/usr/bin" else none)
     (some "/opt/node") false).2.2.2.1 "/opt/node" rfl (by decide),
   by decide, by decide,
   (c8_launch_spec_shapes "srv.js" (fun k => if k = "PATH" then some "/usr/bin" else none)
     (some "/opt/node") false).2.2.2.2.2 "HOME" (by decide) (by decide)⟩

/-- The formatter component of one fan-out step depends only on the
formatter kill-switch, the formatter side and the shared enable flag. -/
theorem stepOp_formatter {Cfg : Type} (e : ExtEnv Cfg) (s : TopState Cfg) (op : Op Cfg) :
    (stepOp e s op).formatter =
      match op with
      | Op.restartCmd => if e.skipFormatter then s.formatter else applyRestart s.formatter
      | Op.toggleCmd =>
          if e.skipFormatter then s.formatter else applyToggle (!s.enable) s.formatter
      | Op.configChangeCmd relevant newCfg =>
          if e.skipFormatter then s.formatter
          else applyConfigChange s.enable relevant newCfg s.formatter
      | Op.deactivateCmd =>
          if e.skipFormatter then s.formatter else applyDeactivate s.formatter := by
  cases op <;> by_cases hl : e.skipLinter <;> by_cases hf : e.skipFormatter <;>
    simp [stepOp, hl, hf]

/-- The linter component of one fan-out step depends only on the linter
kill-switch, the linter side and the shared enable flag. -/
theorem stepOp_linter {Cfg : Type} (e : ExtEnv Cfg) (s : TopState Cfg) (op : Op Cfg) :
    (stepOp e s op).linter =
      match op with
      | Op.restartCmd => if e.skipLinter then s.linter else applyRestart s.linter
      | Op.toggleCmd =>
          if e.skipLinter then s.linter else applyToggle (!s.enable) s.linter
      | Op.configChangeCmd relevant newCfg =>
          if e.skipLinter then s.linter
          else applyConfigChange s.enable relevant newCfg s.linter
      | Op.deactivateCmd =>
          if e.skipLinter then s.linter else applyDeactivate s.linter := by
  cases op <;> by_cases hl : e.skipLinter <;> by_cases hf : e.skipFormatter <;>
    simp [stepOp, hl, hf]

/-- The shared enable flag after one fan-out step: flipped by the toggle
command, untouched by the others, never dependent on the kill-switches. -/
theorem stepOp_enable {Cfg : Type} (e : ExtEnv Cfg) (s : TopState Cfg) (op : Op Cfg) :
    (stepOp e s op).enable =
      match op with
      | Op.restartCmd => s.enable
      | Op.toggleCmd => !s.enable
      | Op.configChangeCmd _ _ => s.enable
      | Op.deactivateCmd => s.enable := by
  cases op <;> by_cases hl : e.skipLinter <;> by_cases hf : e.skipFormatter <;>
    simp [stepOp, hl, hf]

/-- Two runs whose environments agree on the formatter kill-switch, started
in states agreeing on the formatter side and the enable flag, keep agreeing
on both through any sequence of fanned-out operations. -/
theorem runOps_formatter_agree {Cfg : Type} (e1 e2 : ExtEnv Cfg)
    (hf : e1.skipFormatter = e2.skipFormatter) (ops : List (Op Cfg)) :
    ∀ s1 s2 : TopState Cfg, s1.formatter = s2.formatter → s1.enable = s2.enable →
      (runOps e1 ops s1).formatter = (runOps e2 ops s2).formatter
      ∧ (runOps e1 ops s1).enable = (runOps e2 ops s2).enable := by
  induction ops with
  | nil => exact fun s1 s2 h1 h2 => ⟨h1, h2⟩
  | cons op rest ih =>
    intro s1 s2 h1 h2
    have hstep1 : (stepOp e1 s1 op).formatter = (stepOp e2 s2 op).formatter := by
      rw [stepOp_formatter, stepOp_formatter, hf, h1, h2]
    have hstep2 : (stepOp e1 s1 op).enable = (stepOp e2 s2 op).enable := by
      rw [stepOp_enable, stepOp_enable, h2]
    exact ih (stepOp e1 s1 op) (stepOp e2 s2 op) hstep1 hstep2

/-- Two runs whose environments agree on the linter kill-switch, started in
states agreeing on the linter side and the enable flag, keep agreeing on both
through any sequence of fanned-out operations. -/
theorem runOps_linter_agree {Cfg : Type} (e1 e2 : ExtEnv Cfg)
    (hl : e1.skipLinter = e2.skipLinter) (ops : List (Op Cfg)) :
    ∀ s1 s2 : TopState Cfg, s1.linter = s2.linter → s1.enable = s2.enable →
      (runOps e1 ops s1).linter = (runOps e2 ops s2).linter
      ∧ (runOps e1 ops s1).enable = (runOps e2 ops s2).enable := by
  induction ops with
  | nil => exact fun s1 s2 h1 h2 => ⟨h1, h2⟩
  | cons op rest ih =>
    intro s1 s2 h1 h2
    have hstep1 : (stepOp e1 s1 op).linter = (stepOp e2 s2 op).linter := by
      rw [stepOp_linter, stepOp_linter, hl, h1, h2]
    have hstep2 : (stepOp e1 s1 op).enable = (stepOp e2 s2 op).enable := by
      rw [stepOp_enable, stepOp_enable, h2]
    exact ih (stepOp e1 s1 op) (stepOp e2 s2 op) hstep1 hstep2

/-- A kill-switched linter backend is never touched by the fan-out layer. -/
theorem runOps_linter_skipped {Cfg : Type} (e : ExtEnv Cfg) (hl : e.skipLinter = true)
    (ops : List (Op Cfg)) : ∀ s : TopState Cfg, (runOps e ops s).linter = s.linter := by
  induction ops with
  | nil => exact fun s => rfl
  | cons op rest ih =>
    intro s
    have hstep : (stepOp e s op).linter = s.linter := by
      rw [stepOp_linter]
      cases op <;> simp [hl]
    exact (ih (stepOp e s op)).trans hstep

/-- A kill-switched formatter backend is never touched by the fan-out
layer. -/
theorem runOps_formatter_skipped {Cfg : Type} (e : ExtEnv Cfg)
    (hf : e.skipFormatter = true) (ops : List (Op Cfg)) :
    ∀ s : TopState Cfg, (runOps e ops s).formatter = s.formatter := by
  induction ops with
  | nil => exact fun s => rfl
  | cons op rest ih =>
    intro s
    have hstep : (stepOp e s op).formatter = s.formatter := by
      rw [stepOp_formatter]
      cases op <;> simp [hf]
    exact (ih (stepOp e s op)).trans hstep

/-- The backend side produced by a module activation, independent of the
handler slot it was given. -/
theorem moduleActivate_fst {Cfg : Type} (p : BackendParams) (enable : Bool)
    (initOptions : Cfg) (tag : Handler) (side : BackendSide Cfg) (h : Handler) :
    (moduleActivate p enable initOptions tag side h).1
      = if truthy (findBinary p.bin p.accessOk p.serverPathDev).1 then
          { client := some { running := enable, initializationOptions := initOptions },
            log := side.log }
        else { side with log := side.log ++ [Action.logError p.notFoundMsg] } := by
  simp only [moduleActivate]
  split <;> rfl

/-- The formatter side after top-level activation, independent of the linter
kill-switch. -/
theorem extActivate_formatter {Cfg : Type} (env : ExtEnv Cfg) :
    (extActivate env).formatter
      = if env.skipFormatter then { client := none, log := [] }
        else if truthy (findBinary env.formatterParams.bin env.formatterParams.accessOk
            env.formatterParams.serverPathDev).1 then
          { client :=
              some { running := env.enable, initializationOptions := env.initialConfig },
            log := [] }
        else { client := none, log := [Action.logError env.formatterParams.notFoundMsg] } := by
  by_cases hf : env.skipFormatter <;> by_cases hl : env.skipLinter <;>
    simp [extActivate, hf, hl, moduleActivate_fst]

/-- The linter side after top-level activation, independent of the formatter
kill-switch. -/
theorem extActivate_linter {Cfg : Type} (env : ExtEnv Cfg) :
    (extActivate env).linter
      = if env.skipLinter then { client := none, log := [] }
        else if truthy (findBinary env.linterParams.bin env.linterParams.accessOk
            env.linterParams.serverPathDev).1 then
          { client :=
              some { running := env.enable, initializationOptions := env.initialConfig },
            log := [] }
        else { client := none, log := [Action.logError env.linterParams.notFoundMsg] } := by
  by_cases hf : env.skipFormatter <;> by_cases hl : env.skipLinter <;>
    simp [extActivate, hf, hl, moduleActivate_fst]

/-- The shared enable flag after top-level activation. -/
theorem extActivate_enable {Cfg : Type} (env : ExtEnv Cfg) :
    (extActivate env).enable = env.enable := by
  by_cases hf : env.skipFormatter <;> by_cases hl : env.skipLinter <;>
    simp [extActivate, hf, hl]

/-- C9: for any two runs of top-level activation followed by any sequence of
fanned-out commands that differ only in one backend's kill-switch, the other
backend's entire observable outcome (session state and emitted actions) is
identical; and a kill-switched backend is skipped entirely: its side stays at
no session and no actions. -/
theorem c9_kill_switch_independence {Cfg : Type} (e : ExtEnv Cfg) (b1 b2 : Bool)
    (ops : List (Op Cfg)) :
    ((runOps { e with skipLinter := b1 } ops
        (extActivate { e with skipLinter := b1 })).formatter
      = (runOps { e with skipLinter := b2 } ops
        (extActivate { e with skipLinter := b2 })).formatter)
    ∧ ((runOps { e with skipFormatter := b1 } ops
        (extActivate { e with skipFormatter := b1 })).linter
      = (runOps { e with skipFormatter := b2 } ops
        (extActivate { e with skipFormatter := b2 })).linter)
    ∧ (runOps { e with skipLinter := true } ops
        (extActivate { e with skipLinter := true })).linter
        = { client := none, log := [] }
    ∧ (runOps { e with skipFormatter := true } ops
        (extActivate { e with skipFormatter := true })).formatter
        = { client := none, log := [] } := by
  refine ⟨?_, ?_, ?_, ?_⟩
  · exact (runOps_formatter_agree { e with skipLinter := b1 } { e with skipLinter := b2 }
      rfl ops _ _ (by rw [extActivate_formatter, extActivate_formatter])
      (by rw [extActivate_enable, extActivate_enable])).1
  · exact (runOps_linter_agree { e with skipFormatter := b1 } { e with skipFormatter := b2 }
      rfl ops _ _ (by rw [extActivate_linter, extActivate_linter])
      (by rw [extActivate_enable, extActivate_enable])).1
  · rw [runOps_linter_skipped { e with skipLinter := true } rfl ops,
      extActivate_linter]
    simp
  · rw [runOps_formatter_skipped { e with skipFormatter := true } rfl ops,
      extActivate_formatter]
    simp

end OxcSpec
